import Mathlib

/-!
Verification of the subfinder/httpx recon tool (src/recon_tool.py).

Shallow embedding: each Python function of the core pipeline is translated
into an executable Lean definition. Python dictionaries with a fixed key set
become structures with Option fields (absent key = none, dict.get with a
default becomes Option.getD); the insertion-ordered defaultdict of category
buckets becomes an association list with an append operation; string
operations (replace, startswith, lower, slicing, substring membership) are
implemented on character lists with Python semantics.
-/

namespace Recon

/-! ## String helpers: embeddings of the Python str operations used -/

/-- needle is a leading segment of hay (Python str.startswith on a suffix view). -/
def startsWithL : List Char → List Char → Bool
  | _, [] => true
  | [], _ :: _ => false
  | a :: as, b :: bs => a == b && startsWithL as bs

/-- Python substring membership: needle occurs contiguously inside hay. -/
def containsL : List Char → List Char → Bool
  | [], needle => needle.isEmpty
  | c :: t, needle => startsWithL (c :: t) needle || containsL t needle

/-- Python str.replace, fuel-structured so that it reduces by computation:
replace all non-overlapping occurrences of pat, scanning left to right.
Every step shortens the list by at least one character, so fuel = initial
length never runs out; the empty pattern never occurs in our calls and is
mapped to the identity to keep the function total. -/
def replaceAllGo (pat rep : List Char) : Nat → List Char → List Char
  | _, [] => []
  | 0, s => s
  | fuel + 1, c :: t =>
    if pat.length > 0 && startsWithL (c :: t) pat then
      rep ++ replaceAllGo pat rep fuel (t.drop (pat.length - 1))
    else
      c :: replaceAllGo pat rep fuel t

def replaceAllL (pat rep s : List Char) : List Char := replaceAllGo pat rep s.length s

/-- `s.startswith(p)` -/
def pyStartsWith (s p : String) : Bool := startsWithL s.data p.data

/-- `sub in s` -/
def pyContains (s sub : String) : Bool := containsL s.data sub.data

/-- `s.replace(pat, rep)` -/
def pyReplace (s pat rep : String) : String := String.mk (replaceAllL pat.data rep.data s.data)

/-- `s.lower()` (ASCII inputs, as produced by the probe tool) -/
def pyLower (s : String) : String := String.mk (s.data.map Char.toLower)

/-- `s[:n]` -/
def pySlice (s : String) (n : Nat) : String := String.mk (s.data.take n)

/-- `len(s)` -/
def pyLen (s : String) : Nat := s.data.length

/-! ## Result Parser (parse_httpx_results, src/recon_tool.py lines 440-458)

A decoded JSON value as Python json.loads yields it.  Each input line is
modelled by its decode outcome: `none` when json.loads raises
JSONDecodeError (this also covers the blank lines the code skips before
decoding), `some v` when it decodes to the value v. -/

inductive PyJson where
  | obj  : List (String × PyJson) → PyJson
  | arr  : List PyJson → PyJson
  | str  : String → PyJson
  | num  : Int → PyJson
  | bool : Bool → PyJson
  | null : PyJson
deriving Repr

/-- Python equality test of the string s against a decoded value
(used by list membership: a str equals only an equal str). -/
def pyEqStr (s : String) : PyJson → Bool
  | .str t => s == t
  | _ => false

/-- Python `s in data` for a decoded JSON value: key membership for a dict,
element equality for a list, substring test for a str, and a TypeError for
the non-container values (int, float, bool, None). -/
def pyIn (s : String) : PyJson → Except String Bool
  | .obj kvs => .ok (kvs.any (fun kv => kv.1 == s))
  | .arr xs  => .ok (xs.any (pyEqStr s))
  | .str t   => .ok (pyContains t s)
  | .num _   => .error "TypeError"
  | .bool _  => .error "TypeError"
  | .null    => .error "TypeError"

/-- parse_httpx_results: for each line, lines failing to decode are skipped
(the except clause catches only JSONDecodeError); for a decoded value the
code evaluates `if "url" in data` inside the same try block, so a TypeError
from that membership test propagates out of the whole function. -/
def parse_httpx_results : List (Option PyJson) → Except String (List PyJson)
  | [] => .ok []
  | none :: rest => parse_httpx_results rest
  | some d :: rest =>
    match pyIn "url" d with
    | .error e => .error e
    | .ok b =>
      match parse_httpx_results rest with
      | .error e => .error e
      | .ok rs => .ok (if b then d :: rs else rs)

/-- The decoded value is a JSON object. -/
def isObjB : PyJson → Bool
  | .obj _ => true
  | _ => false

/-- The decoded value is a JSON object containing a url key. -/
def objHasUrl : PyJson → Bool
  | .obj kvs => kvs.any (fun kv => kv.1 == "url")
  | _ => false

/-! ## Categorizer data model (ReconCategorizer, src/recon_tool.py lines 263-364) -/

/-- A parsed httpx result dict, restricted to the keys the core reads or
writes.  Absent key = none; `result.get(k, d)` = `(field).getD d`. -/
structure HostRecord where
  url : Option String := none
  status_code : Option Int := none
  title : Option String := none
  clean_url : Option String := none
deriving Repr, DecidableEq

/-- The host_data dict built per record inside categorize_results. -/
structure HostData where
  url : String
  clean_url : String
  status_code : Int
  title : String
  is_https : Bool
deriving Repr, DecidableEq

/-- The stats dict of categorize_results. -/
structure Stats where
  total_discovered : Nat
  dns_resolved : Nat
  online_hosts : Nat
  web_services : Nat
  fully_operational : Nat
  https_only : Nat
  http_only : Nat
  redirects : Nat
  errors : Nat
  blocked : Nat
  no_response : Nat
deriving Repr, DecidableEq

/-- The interesting dict of categorize_results. -/
structure Interesting where
  admin_panels : List String
  api_endpoints : List String
  development_servers : List String
  shared_hosting : List String
deriving Repr, DecidableEq

/-- The categorized defaultdict(list): an insertion-ordered association
list from category name to its bucket. -/
abbrev CatDict := List (String × List HostData)

/-- `categorized[k].append(v)` on a defaultdict(list): append to the bucket
of an existing key, or create the key with a singleton bucket at the end
(Python dict insertion order). -/
def dictAppend : CatDict → String → HostData → CatDict
  | [], k, v => [(k, [v])]
  | (k0, vs) :: rest, k, v =>
    if k0 = k then (k0, vs ++ [v]) :: rest else (k0, vs) :: dictAppend rest k v

/-- `k in d` for the bucket dict. -/
def dictHasKey (d : CatDict) (k : String) : Bool := d.any (fun p => p.1 == k)

/-- Total number of hosts across all buckets. -/
def sumLens (d : CatDict) : Nat := (d.map (fun p => p.2.length)).sum

/-- url with the scheme stripped via the two replace calls at line 297. -/
def clean_url_of (url : String) : String :=
  pyReplace (pyReplace url "https://" "") "http://" ""

/-- _check_interesting_finds (lines 345-364): appends each record with its
`result.get("clean_url", url)` to each keyword group it matches, where url
and title are the lowercased `result.get("url", "")` / `result.get("title", "")`. -/
def check_interesting_finds (result : HostRecord) (interesting : Interesting) : Interesting :=
  let url := pyLower (result.url.getD "")
  let title := pyLower (result.title.getD "")
  let admin_keywords := ["admin", "login", "panel", "dashboard", "control", "administrator"]
  let interesting :=
    if admin_keywords.any (fun keyword => pyContains url keyword || pyContains title keyword) then
      { interesting with admin_panels := interesting.admin_panels ++ [result.clean_url.getD url] }
    else interesting
  let api_keywords := ["api.", "/api", "/v1", "/v2", "/v3", "/graphql", "/rest"]
  let interesting :=
    if api_keywords.any (fun keyword => pyContains url keyword) then
      { interesting with api_endpoints := interesting.api_endpoints ++ [result.clean_url.getD url] }
    else interesting
  let dev_ports := [":3000", ":5000", ":8000", ":8080", ":9000", ":4200"]
  if dev_ports.any (fun port => pyContains url port) then
    { interesting with development_servers := interesting.development_servers ++ [result.clean_url.getD url] }
  else interesting

/-- The whole loop state of categorize_results, plus the list of input
records as they stand after the loop body ran on them (the loop writes
result["clean_url"] back into each input record at line 298, so the
post-loop records are part of the observable behaviour). -/
structure CatState where
  categorized : CatDict
  stats : Stats
  interesting : Interesting
  processed : List HostRecord
deriving Repr, DecidableEq

/-- One iteration of the first-pass loop of categorize_results
(lines 292-341), including the clean_url write-back into the input record. -/
def categorize_one (st : CatState) (result : HostRecord) : CatState :=
  let status := result.status_code.getD 0
  let url := result.url.getD ""
  let clean_url := clean_url_of url
  let result := { result with clean_url := some clean_url }
  let is_https := pyStartsWith url "https://"
  let host_data : HostData :=
    { url := url, clean_url := clean_url, status_code := status,
      title := result.title.getD "No Title", is_https := is_https }
  let stats := st.stats
  let (categorized, stats) :=
    if status = 200 then
      (dictAppend st.categorized "fully_operational" host_data,
       { stats with web_services := stats.web_services + 1,
                    fully_operational := stats.fully_operational + 1 })
    else if status = 301 ∨ status = 302 ∨ status = 307 ∨ status = 308 then
      (dictAppend st.categorized "redirects" host_data,
       { stats with web_services := stats.web_services + 1,
                    redirects := stats.redirects + 1 })
    else if status = 403 ∨ status = 401 then
      (dictAppend st.categorized "blocked" host_data,
       { stats with web_services := stats.web_services + 1,
                    blocked := stats.blocked + 1 })
    else if 400 ≤ status ∧ status < 500 then
      (dictAppend st.categorized "errors" host_data,
       { stats with web_services := stats.web_services + 1,
                    errors := stats.errors + 1 })
    else if 500 ≤ status then
      (dictAppend st.categorized "errors" host_data,
       { stats with web_services := stats.web_services + 1,
                    errors := stats.errors + 1 })
    else if status = 0 then
      (dictAppend st.categorized "no_response" host_data,
       { stats with no_response := stats.no_response + 1 })
    else
      (dictAppend st.categorized "fully_operational" host_data,
       { stats with web_services := stats.web_services + 1 })
  let interesting := check_interesting_finds result st.interesting
  { categorized := categorized, stats := stats, interesting := interesting,
    processed := st.processed ++ [result] }

/-- The stats dict as set up at lines 270-282 before the loop. -/
def initStats (n : Nat) : Stats :=
  { total_discovered := n, dns_resolved := n, online_hosts := n,
    web_services := 0, fully_operational := 0, https_only := 0, http_only := 0,
    redirects := 0, errors := 0, blocked := 0, no_response := 0 }

/-- The interesting dict as set up at lines 284-289. -/
def initInteresting : Interesting :=
  { admin_panels := [], api_endpoints := [], development_servers := [],
    shared_hosting := [] }

/-- categorize_results (lines 267-343). -/
def categorize_results (results : List HostRecord) : CatState :=
  results.foldl categorize_one
    { categorized := [], stats := initStats results.length,
      interesting := initInteresting, processed := [] }

/-! ## Derived views used to state the claims -/

/-- The category name chosen by the if-chain at lines 313-338,
read off as a function of the status code alone. -/
def categoryOf (status : Int) : String :=
  if status = 200 then "fully_operational"
  else if status = 301 ∨ status = 302 ∨ status = 307 ∨ status = 308 then "redirects"
  else if status = 403 ∨ status = 401 then "blocked"
  else if 400 ≤ status ∧ status < 500 then "errors"
  else if 500 ≤ status then "errors"
  else if status = 0 then "no_response"
  else "fully_operational"

/-- The host_data dict built for a record at lines 304-310. -/
def host_data_of (result : HostRecord) : HostData :=
  let url := result.url.getD ""
  { url := url, clean_url := clean_url_of url,
    status_code := result.status_code.getD 0,
    title := result.title.getD "No Title",
    is_https := pyStartsWith url "https://" }

/-- The record as it stands after the loop body wrote clean_url into it. -/
def mutate_record (r : HostRecord) : HostRecord :=
  { r with clean_url := some (clean_url_of (r.url.getD "")) }

/-- The admin-panels keyword test of _check_interesting_finds. -/
def adminMatch (r : HostRecord) : Bool :=
  ["admin", "login", "panel", "dashboard", "control", "administrator"].any
    (fun keyword => pyContains (pyLower (r.url.getD "")) keyword ||
      pyContains (pyLower (r.title.getD "")) keyword)

/-- The api-endpoints keyword test of _check_interesting_finds. -/
def apiMatch (r : HostRecord) : Bool :=
  ["api.", "/api", "/v1", "/v2", "/v3", "/graphql", "/rest"].any
    (fun keyword => pyContains (pyLower (r.url.getD "")) keyword)

/-- The development-servers port test of _check_interesting_finds. -/
def devMatch (r : HostRecord) : Bool :=
  [":3000", ":5000", ":8000", ":8080", ":9000", ":4200"].any
    (fun port => pyContains (pyLower (r.url.getD "")) port)

/-! ## Step lemmas: one loop iteration of categorize_results -/

/-- The bucket update of one iteration: the host_data dict is appended to
the bucket whose name categoryOf gives for the status code of the record. -/
theorem categorize_one_categorized (st : CatState) (r : HostRecord) :
    (categorize_one st r).categorized =
      dictAppend st.categorized (categoryOf (r.status_code.getD 0)) (host_data_of r) := by
  simp only [categorize_one, categoryOf, host_data_of]
  split_ifs <;> rfl

/-- One iteration appends the clean_url-mutated record to the processed list. -/
theorem categorize_one_processed (st : CatState) (r : HostRecord) :
    (categorize_one st r).processed = st.processed ++ [mutate_record r] := by
  simp only [categorize_one, mutate_record]

/-- One iteration runs _check_interesting_finds on the mutated record. -/
theorem categorize_one_interesting (st : CatState) (r : HostRecord) :
    (categorize_one st r).interesting =
      check_interesting_finds (mutate_record r) st.interesting := by
  simp only [categorize_one, mutate_record]

/-- web_services + no_response grows by exactly one each iteration. -/
theorem categorize_one_web_no (st : CatState) (r : HostRecord) :
    (categorize_one st r).stats.web_services + (categorize_one st r).stats.no_response =
      st.stats.web_services + st.stats.no_response + 1 := by
  simp only [categorize_one]
  split_ifs <;> simp <;> omega

/-- The three fixed counters are never touched by the loop body. -/
theorem categorize_one_const (st : CatState) (r : HostRecord) :
    (categorize_one st r).stats.total_discovered = st.stats.total_discovered ∧
    (categorize_one st r).stats.dns_resolved = st.stats.dns_resolved ∧
    (categorize_one st r).stats.online_hosts = st.stats.online_hosts := by
  simp only [categorize_one]
  split_ifs <;> exact ⟨rfl, rfl, rfl⟩

/-! ## Bucket-dict lemmas -/

theorem sumLens_dictAppend (d : CatDict) (k : String) (v : HostData) :
    sumLens (dictAppend d k v) = sumLens d + 1 := by
  induction d with
  | nil => simp [dictAppend, sumLens]
  | cons p t ih =>
    obtain ⟨k0, vs⟩ := p
    by_cases h : k0 = k
    · simp [dictAppend, h, sumLens]
      omega
    · simp [dictAppend, h, sumLens] at ih ⊢
      omega

theorem dictHasKey_cons (k0 : String) (vs : List HostData) (t : CatDict) (k1 : String) :
    dictHasKey ((k0, vs) :: t) k1 = ((k0 == k1) || dictHasKey t k1) := rfl

theorem dictHasKey_dictAppend (d : CatDict) (k k1 : String) (v : HostData) :
    dictHasKey (dictAppend d k v) k1 = (dictHasKey d k1 || (k == k1)) := by
  induction d with
  | nil => simp [dictAppend, dictHasKey]
  | cons p t ih =>
    obtain ⟨k0, vs⟩ := p
    by_cases h : k0 = k
    · subst h
      rw [show dictAppend ((k0, vs) :: t) k0 v = (k0, vs ++ [v]) :: t from by
        simp [dictAppend]]
      rw [dictHasKey_cons, dictHasKey_cons]
      cases hx : (k0 == k1) <;> cases hy : dictHasKey t k1 <;> simp [hx, hy]
    · rw [show dictAppend ((k0, vs) :: t) k v = (k0, vs) :: dictAppend t k v from by
        simp [dictAppend, h]]
      rw [dictHasKey_cons, dictHasKey_cons, ih, Bool.or_assoc]

theorem dictAppend_buckets_ne_nil (d : CatDict) (k : String) (v : HostData)
    (h : ∀ p ∈ d, p.2 ≠ []) : ∀ p ∈ dictAppend d k v, p.2 ≠ [] := by
  induction d with
  | nil =>
    intro p hp
    simp [dictAppend] at hp
    subst hp
    simp
  | cons q t ih =>
    obtain ⟨k0, vs⟩ := q
    intro p hp
    by_cases hk : k0 = k
    · rw [show dictAppend ((k0, vs) :: t) k v = (k0, vs ++ [v]) :: t from by
        simp [dictAppend, hk]] at hp
      rcases List.mem_cons.mp hp with h1 | h1
      · subst h1
        simp
      · exact h p (List.mem_cons_of_mem _ h1)
    · rw [show dictAppend ((k0, vs) :: t) k v = (k0, vs) :: dictAppend t k v from by
        simp [dictAppend, hk]] at hp
      rcases List.mem_cons.mp hp with h1 | h1
      · subst h1
        exact h (k0, vs) (by simp)
      · exact ih (fun q hq => h q (List.mem_cons_of_mem _ hq)) p h1

/-! ## Fold lemmas over the loop of categorize_results -/

theorem foldl_count {σ α : Type} (f : σ → α → σ) (g : σ → Nat)
    (hf : ∀ s a, g (f s a) = g s + 1) :
    ∀ (l : List α) (s : σ), g (l.foldl f s) = g s + l.length := by
  intro l
  induction l with
  | nil => intro s; simp
  | cons a t ih =>
    intro s
    rw [List.foldl_cons, ih, hf]
    simp
    omega

theorem foldl_keep {σ α β : Type} (f : σ → α → σ) (g : σ → β)
    (hf : ∀ s a, g (f s a) = g s) :
    ∀ (l : List α) (s : σ), g (l.foldl f s) = g s := by
  intro l
  induction l with
  | nil => intro s; rfl
  | cons a t ih =>
    intro s
    rw [List.foldl_cons, ih, hf]

theorem foldl_pres {σ α : Type} (f : σ → α → σ) (P : σ → Prop)
    (hf : ∀ s a, P s → P (f s a)) :
    ∀ (l : List α) (s : σ), P s → P (l.foldl f s) := by
  intro l
  induction l with
  | nil => intro s hs; exact hs
  | cons a t ih =>
    intro s hs
    rw [List.foldl_cons]
    exact ih (f s a) (hf s a hs)

theorem foldl_processed (l : List HostRecord) :
    ∀ st : CatState, (l.foldl categorize_one st).processed =
      st.processed ++ l.map mutate_record := by
  induction l with
  | nil => intro st; simp
  | cons r t ih =>
    intro st
    rw [List.foldl_cons, ih, categorize_one_processed]
    simp

theorem foldl_hasKey (l : List HostRecord) :
    ∀ (st : CatState) (k : String),
      dictHasKey (l.foldl categorize_one st).categorized k =
        (dictHasKey st.categorized k ||
          l.any (fun r => categoryOf (r.status_code.getD 0) == k)) := by
  induction l with
  | nil => intro st k; simp
  | cons r t ih =>
    intro st k
    rw [List.foldl_cons, ih]
    rw [categorize_one_categorized, dictHasKey_dictAppend]
    simp [Bool.or_assoc]

/-! ## Interesting-finds lemmas -/

theorem check_admin (r : HostRecord) (i : Interesting) :
    (check_interesting_finds r i).admin_panels =
      i.admin_panels ++
        (if adminMatch r then [r.clean_url.getD (pyLower (r.url.getD ""))] else []) := by
  simp only [check_interesting_finds, adminMatch]
  split_ifs <;> simp

theorem check_api (r : HostRecord) (i : Interesting) :
    (check_interesting_finds r i).api_endpoints =
      i.api_endpoints ++
        (if apiMatch r then [r.clean_url.getD (pyLower (r.url.getD ""))] else []) := by
  simp only [check_interesting_finds, apiMatch]
  split_ifs <;> simp

theorem check_dev (r : HostRecord) (i : Interesting) :
    (check_interesting_finds r i).development_servers =
      i.development_servers ++
        (if devMatch r then [r.clean_url.getD (pyLower (r.url.getD ""))] else []) := by
  simp only [check_interesting_finds, devMatch]
  split_ifs <;> simp

theorem adminMatch_mutate (r : HostRecord) : adminMatch (mutate_record r) = adminMatch r := rfl

theorem apiMatch_mutate (r : HostRecord) : apiMatch (mutate_record r) = apiMatch r := rfl

theorem devMatch_mutate (r : HostRecord) : devMatch (mutate_record r) = devMatch r := rfl

theorem mutate_entry (r : HostRecord) (s : String) :
    (mutate_record r).clean_url.getD s = clean_url_of (r.url.getD "") := rfl

theorem foldl_admin (l : List HostRecord) :
    ∀ st : CatState, (l.foldl categorize_one st).interesting.admin_panels =
      st.interesting.admin_panels ++
        l.filterMap
          (fun r => if adminMatch r then some (clean_url_of (r.url.getD "")) else none) := by
  induction l with
  | nil => intro st; simp
  | cons r t ih =>
    intro st
    rw [List.foldl_cons, ih, categorize_one_interesting, check_admin,
      adminMatch_mutate, mutate_entry]
    by_cases h : adminMatch r <;> simp [h, List.filterMap_cons]

theorem foldl_api (l : List HostRecord) :
    ∀ st : CatState, (l.foldl categorize_one st).interesting.api_endpoints =
      st.interesting.api_endpoints ++
        l.filterMap
          (fun r => if apiMatch r then some (clean_url_of (r.url.getD "")) else none) := by
  induction l with
  | nil => intro st; simp
  | cons r t ih =>
    intro st
    rw [List.foldl_cons, ih, categorize_one_interesting, check_api,
      apiMatch_mutate, mutate_entry]
    by_cases h : apiMatch r <;> simp [h, List.filterMap_cons]

theorem foldl_dev (l : List HostRecord) :
    ∀ st : CatState, (l.foldl categorize_one st).interesting.development_servers =
      st.interesting.development_servers ++
        l.filterMap
          (fun r => if devMatch r then some (clean_url_of (r.url.getD "")) else none) := by
  induction l with
  | nil => intro st; simp
  | cons r t ih =>
    intro st
    rw [List.foldl_cons, ih, categorize_one_interesting, check_dev,
      devMatch_mutate, mutate_entry]
    by_cases h : devMatch r <;> simp [h, List.filterMap_cons]

/-- categoryOf only ever produces one of the five populated bucket names;
in particular never https_only or http_only. -/
theorem categoryOf_not_scheme (s : Int) :
    categoryOf s ≠ "https_only" ∧ categoryOf s ≠ "http_only" := by
  unfold categoryOf
  split_ifs <;> exact ⟨by decide, by decide⟩

/-! ## Whole-pass lemmas about categorize_results -/

theorem categorize_results_sumLens (rs : List HostRecord) :
    sumLens (categorize_results rs).categorized = rs.length := by
  have h1 : ∀ (st : CatState) (r : HostRecord),
      sumLens (categorize_one st r).categorized = sumLens st.categorized + 1 := by
    intro st r
    rw [categorize_one_categorized, sumLens_dictAppend]
  unfold categorize_results
  rw [foldl_count categorize_one (fun st => sumLens st.categorized) h1]
  simp [sumLens]

theorem categorize_results_web_no (rs : List HostRecord) :
    (categorize_results rs).stats.web_services +
      (categorize_results rs).stats.no_response = rs.length := by
  unfold categorize_results
  have h := foldl_count categorize_one
    (fun st => st.stats.web_services + st.stats.no_response) categorize_one_web_no rs
    { categorized := [], stats := initStats rs.length,
      interesting := initInteresting, processed := [] }
  simpa [initStats] using h

theorem categorize_results_const (rs : List HostRecord) :
    (categorize_results rs).stats.total_discovered = rs.length ∧
    (categorize_results rs).stats.dns_resolved = rs.length ∧
    (categorize_results rs).stats.online_hosts = rs.length := by
  unfold categorize_results
  refine ⟨?_, ?_, ?_⟩
  · rw [foldl_keep categorize_one (fun st => st.stats.total_discovered)
      (fun s a => (categorize_one_const s a).1)]
    rfl
  · rw [foldl_keep categorize_one (fun st => st.stats.dns_resolved)
      (fun s a => (categorize_one_const s a).2.1)]
    rfl
  · rw [foldl_keep categorize_one (fun st => st.stats.online_hosts)
      (fun s a => (categorize_one_const s a).2.2)]
    rfl

/-! Concrete inputs used by the witnesses and counterexamples -/

/-- An empty loop state over a single-record input. -/
def st1 : CatState :=
  { categorized := [], stats := initStats 1, interesting := initInteresting,
    processed := [] }

/-- A record with an unrecognized 2xx status. -/
def rec201 : HostRecord :=
  { url := some "http://x.example.com", status_code := some 201,
    title := some "Created", clean_url := none }

/-- A status-200 record with an https url. -/
def rec200https : HostRecord :=
  { url := some "https://a.example.com", status_code := some 200,
    title := some "Home", clean_url := none }

/-- A status-200 record with an http url. -/
def rec200http : HostRecord :=
  { url := some "http://x.com", status_code := some 200,
    title := none, clean_url := none }

/-- rec200https after the loop wrote its clean_url back. -/
def rec200httpsMut : HostRecord :=
  { url := some "https://a.example.com", status_code := some 200,
    title := some "Home", clean_url := some "a.example.com" }

/-! ## Claim theorems for the Categorizer -/

/-- C1: categorize_results assigns each record to exactly one category
bucket, so the buckets partition the input: the sum of the lengths of all
category buckets equals the number of input records; the web_services
counter equals the number of input records minus the no_response count; and
total_discovered, dns_resolved and online_hosts all equal the number of
input records. -/
theorem C1_partition_and_stats (rs : List HostRecord) :
    sumLens (categorize_results rs).categorized = rs.length ∧
    (categorize_results rs).stats.web_services =
      rs.length - (categorize_results rs).stats.no_response ∧
    (categorize_results rs).stats.total_discovered = rs.length ∧
    (categorize_results rs).stats.dns_resolved = rs.length ∧
    (categorize_results rs).stats.online_hosts = rs.length := by
  have h1 := categorize_results_sumLens rs
  have h2 := categorize_results_web_no rs
  have h3 := categorize_results_const rs
  exact ⟨h1, by omega, h3.1, h3.2.1, h3.2.2⟩

/-- C2: category assignment is a function of the status code alone, decided
by first-matching rule in a fixed priority order: 200 maps to
fully_operational; 301, 302, 307, 308 map to redirects; 401 and 403 map to
blocked (never errors); every other status in [400, 500) and every status
at least 500 maps to errors; 0 maps to no_response; the URL scheme never
affects the chosen category: a status-200 record whose url begins with
https:// lands in fully_operational with is_https true, not in https_only. -/
theorem C2_status_priority :
    (∀ (st : CatState) (r : HostRecord),
      (categorize_one st r).categorized =
        dictAppend st.categorized (categoryOf (r.status_code.getD 0)) (host_data_of r)) ∧
    categoryOf 200 = "fully_operational" ∧
    (∀ s : Int, (s = 301 ∨ s = 302 ∨ s = 307 ∨ s = 308) → categoryOf s = "redirects") ∧
    categoryOf 401 = "blocked" ∧
    categoryOf 403 = "blocked" ∧
    (∀ s : Int, 400 ≤ s → s < 500 → s ≠ 401 → s ≠ 403 → categoryOf s = "errors") ∧
    (∀ s : Int, 500 ≤ s → categoryOf s = "errors") ∧
    categoryOf 0 = "no_response" ∧
    (∀ (st : CatState) (r : HostRecord),
      r.status_code = some 200 → pyStartsWith (r.url.getD "") "https://" = true →
      (categorize_one st r).categorized =
        dictAppend st.categorized "fully_operational" (host_data_of r) ∧
      (host_data_of r).is_https = true ∧
      ("fully_operational" : String) ≠ "https_only") := by
  refine ⟨categorize_one_categorized, rfl, ?_, rfl, rfl, ?_, ?_, rfl, ?_⟩
  · intro s h
    unfold categoryOf
    split_ifs <;> first | rfl | omega
  · intro s h1 h2 h3 h4
    unfold categoryOf
    split_ifs <;> first | rfl | omega
  · intro s h
    unfold categoryOf
    split_ifs <;> first | rfl | omega
  · intro st r h200 hhttps
    refine ⟨?_, ?_, by decide⟩
    · rw [categorize_one_categorized, h200]
      rfl
    · unfold host_data_of
      exact hhttps

/-- C2 witness: the theorem applied at concrete statuses and at a concrete
status-200 https record. -/
theorem C2_status_priority_witness :
    categoryOf 302 = "redirects" ∧
    categoryOf 404 = "errors" ∧
    categoryOf 503 = "errors" ∧
    ((categorize_one st1 rec200https).categorized =
      dictAppend [] "fully_operational" (host_data_of rec200https) ∧
      (host_data_of rec200https).is_https = true ∧
      ("fully_operational" : String) ≠ "https_only") := by
  have h := C2_status_priority
  refine ⟨h.2.2.1 302 (by omega), ?_, h.2.2.2.2.2.2.1 503 (by omega), ?_⟩
  · exact h.2.2.2.2.2.1 404 (by omega) (by omega) (by omega) (by omega)
  · exact h.2.2.2.2.2.2.2.2 st1 rec200https rfl (by decide)

/-- C3 counterexample: a status-201 record lands in the fully_operational
bucket and increments web_services, but the fully_operational stats counter
stays 0, contradicting the claim that the fallback increments both
counters. -/
theorem C3_counterexample :
    (categorize_results [rec201]).stats.fully_operational = 0 ∧
    (categorize_results [rec201]).stats.web_services = 1 ∧
    (categorize_results [rec201]).categorized =
      [("fully_operational",
        [{ url := "http://x.example.com", clean_url := "x.example.com",
           status_code := 201, title := "Created", is_https := false }])] := by
  exact ⟨rfl, rfl, rfl⟩

/-- C3 (amended): for every record whose status code matches none of the
earlier rules, categorize_results places the record in the
fully_operational bucket and increments webServices, but it does NOT
increment the fullyOperational stats counter, which is left unchanged. -/
theorem C3_fallback_amended (st : CatState) (r : HostRecord)
    (h1 : r.status_code.getD 0 ≠ 200)
    (h2 : ¬(r.status_code.getD 0 = 301 ∨ r.status_code.getD 0 = 302 ∨
        r.status_code.getD 0 = 307 ∨ r.status_code.getD 0 = 308))
    (h3 : r.status_code.getD 0 ≠ 403)
    (h4 : r.status_code.getD 0 ≠ 401)
    (h5 : ¬(400 ≤ r.status_code.getD 0 ∧ r.status_code.getD 0 < 500))
    (h6 : ¬(500 ≤ r.status_code.getD 0))
    (h7 : r.status_code.getD 0 ≠ 0) :
    (categorize_one st r).categorized =
      dictAppend st.categorized "fully_operational" (host_data_of r) ∧
    (categorize_one st r).stats.web_services = st.stats.web_services + 1 ∧
    (categorize_one st r).stats.fully_operational = st.stats.fully_operational := by
  refine ⟨?_, ?_, ?_⟩
  · rw [categorize_one_categorized]
    congr 1
    unfold categoryOf
    split_ifs <;> first | rfl | omega
  · simp only [categorize_one]
    split_ifs <;> rfl
  · simp only [categorize_one]
    split_ifs <;> first | rfl | omega

/-- C3 witness: the amended theorem applied to a status-201 record. -/
theorem C3_fallback_amended_witness :
    (categorize_one st1 rec201).categorized =
      dictAppend [] "fully_operational" (host_data_of rec201) ∧
    (categorize_one st1 rec201).stats.web_services = (initStats 1).web_services + 1 ∧
    (categorize_one st1 rec201).stats.fully_operational = (initStats 1).fully_operational :=
  C3_fallback_amended st1 rec201 (by decide) (by decide) (by decide) (by decide)
    (by decide) (by decide) (by decide)

/-- C5 counterexample: categorization writes the derived clean_url back
into the parsed HostRecord it received, so the record after the pass
differs from the record handed over. -/
theorem C5_counterexample :
    (categorize_results [rec200https]).processed = [rec200httpsMut] ∧
    rec200httpsMut ≠ rec200https := by
  exact ⟨rfl, by decide⟩

/-- C5 (amended): categorization mutates each parsed HostRecord it receives
in exactly one way: it writes the scheme-stripped clean_url into the
record; every other field is preserved, and none of the other derived
CategorizedHost data is written back. -/
theorem C5_mutation_amended (rs : List HostRecord) :
    (categorize_results rs).processed = rs.map mutate_record := by
  unfold categorize_results
  rw [foldl_processed]
  rfl

/-- C8: during one categorization pass each interesting-finds group equals
the input-ordered selection of the records matching the keyword test of that group, with each matching record contributing its
test, each contributing its scheme-stripped clean URL exactly once; a
record may appear in several groups independently, and never twice in the
same group. -/
theorem C8_interesting_groups (rs : List HostRecord) :
    (categorize_results rs).interesting.admin_panels =
      rs.filterMap
        (fun r => if adminMatch r then some (clean_url_of (r.url.getD "")) else none) ∧
    (categorize_results rs).interesting.api_endpoints =
      rs.filterMap
        (fun r => if apiMatch r then some (clean_url_of (r.url.getD "")) else none) ∧
    (categorize_results rs).interesting.development_servers =
      rs.filterMap
        (fun r => if devMatch r then some (clean_url_of (r.url.getD "")) else none) := by
  unfold categorize_results
  refine ⟨?_, ?_, ?_⟩
  · rw [foldl_admin]
    rfl
  · rw [foldl_api]
    rfl
  · rw [foldl_dev]
    rfl

/-- C10: the categorized mapping contains a key exactly when at least one
record was assigned to that category; no bucket in the mapping is empty,
and the https_only and http_only keys never appear. -/
theorem C10_no_empty_buckets (rs : List HostRecord) :
    (∀ p ∈ (categorize_results rs).categorized, p.2 ≠ []) ∧
    (∀ k : String, dictHasKey (categorize_results rs).categorized k = true ↔
      ∃ r ∈ rs, categoryOf (r.status_code.getD 0) = k) ∧
    dictHasKey (categorize_results rs).categorized "https_only" = false ∧
    dictHasKey (categorize_results rs).categorized "http_only" = false := by
  have hkey : ∀ k, dictHasKey (categorize_results rs).categorized k =
      rs.any (fun r => categoryOf (r.status_code.getD 0) == k) := by
    intro k
    unfold categorize_results
    rw [foldl_hasKey]
    rfl
  refine ⟨?_, ?_, ?_, ?_⟩
  · unfold categorize_results
    refine foldl_pres categorize_one (fun st => ∀ p ∈ st.categorized, p.2 ≠ []) ?_ rs _ ?_
    · intro s a hs
      rw [categorize_one_categorized]
      exact dictAppend_buckets_ne_nil _ _ _ hs
    · intro p hp
      simp at hp
  · intro k
    rw [hkey, List.any_eq_true]
    constructor
    · rintro ⟨r, hr, hc⟩
      exact ⟨r, hr, by simpa using hc⟩
    · rintro ⟨r, hr, hc⟩
      exact ⟨r, hr, by simpa using hc⟩
  · rw [hkey, List.any_eq_false]
    intro r _
    simp only [beq_iff_eq]
    exact (categoryOf_not_scheme _).1
  · rw [hkey, List.any_eq_false]
    intro r _
    simp only [beq_iff_eq]
    exact (categoryOf_not_scheme _).2

/-- C10 witness: the theorem applied to a single status-200 record. -/
theorem C10_no_empty_buckets_witness :
    dictHasKey (categorize_results [rec200http]).categorized "fully_operational" = true ∧
    dictHasKey (categorize_results [rec200http]).categorized "https_only" = false := by
  have h := C10_no_empty_buckets [rec200http]
  exact ⟨(h.2.1 "fully_operational").mpr ⟨rec200http, by simp, rfl⟩, h.2.2.1⟩

/-! ## Claim theorems for the Result Parser -/

/-- C4 counterexample: the parser does not skip every non-qualifying line
silently.  A line decoding to the JSON number 42 raises an uncaught
TypeError; a line decoding to the JSON array ["url"] (not an object) emits
a record; so does a line decoding to the JSON string "curl", whose text
merely contains "url" as a substring. -/
theorem C4_counterexample :
    parse_httpx_results [some (PyJson.num 42)] = Except.error "TypeError" ∧
    parse_httpx_results [some (PyJson.arr [PyJson.str "url"])] =
      Except.ok [PyJson.arr [PyJson.str "url"]] ∧
    parse_httpx_results [some (PyJson.str "curl")] = Except.ok [PyJson.str "curl"] :=
  ⟨rfl, rfl, rfl⟩

/-- C4 (amended): restricted to input lines that either fail to decode as
JSON or decode to a JSON object, the parser emits one record per line
exactly when the object contains a url key, skips the other lines silently
with no error and no partial record, and preserves the input order with no
duplication.  (Lines decoding to non-object JSON fall outside the claim:
arrays and strings admitting a "url" membership test emit a record, and
numbers, booleans and null raise an uncaught TypeError.) -/
theorem C4_objects_amended (lines : List (Option PyJson))
    (h : ∀ d ∈ lines.filterMap id, isObjB d = true) :
    parse_httpx_results lines = Except.ok ((lines.filterMap id).filter objHasUrl) := by
  induction lines with
  | nil => rfl
  | cons x rest ih =>
    cases x with
    | none =>
      have hrest : ∀ d ∈ rest.filterMap id, isObjB d = true := by
        intro d hd
        exact h d (by simpa using hd)
      simpa [parse_httpx_results] using ih hrest
    | some d =>
      have hd : isObjB d = true := h d (by simp)
      have hrest : ∀ x ∈ rest.filterMap id, isObjB x = true := by
        intro x hx
        exact h x (by simp [hx])
      cases d with
      | obj kvs =>
        have ihh := ih hrest
        simp only [parse_httpx_results, pyIn, ihh]
        by_cases hb : kvs.any (fun kv => kv.1 == "url")
        · simp [hb, objHasUrl, List.filter_cons]
        · simp [hb, objHasUrl, List.filter_cons]
      | arr xs => simp [isObjB] at hd
      | str s => simp [isObjB] at hd
      | num n => simp [isObjB] at hd
      | bool b => simp [isObjB] at hd
      | null => simp [isObjB] at hd

/-- C4 witness: the amended theorem applied to three concrete lines: an
object with a url key, an undecodable line, and an object without url. -/
theorem C4_objects_amended_witness :
    parse_httpx_results
      [some (PyJson.obj [("url", PyJson.str "https://a.example.com")]), none,
        some (PyJson.obj [("input", PyJson.str "x")])] =
      Except.ok [PyJson.obj [("url", PyJson.str "https://a.example.com")]] := by
  have h := C4_objects_amended
    [some (PyJson.obj [("url", PyJson.str "https://a.example.com")]), none,
      some (PyJson.obj [("input", PyJson.str "x")])] (by decide)
  exact h.trans rfl

/-! ## Presentation Engine (OutputManager, src/recon_tool.py lines 33-260) -/

/-- What the detailed listing renders for one non-empty category: the host
entries printed, the large-category warning line carrying (shown, total),
the "Not shown (R hosts)" line, and the sample bullet with its preview
clean URLs and the optional +K more suffix. -/
structure CategoryRender where
  shown : List HostData
  large_warning : Option (Nat × Nat)
  not_shown_count : Option Nat
  sample_line : Option (List String × Option Nat)
deriving Repr, DecidableEq

/-- display_categorized_results dispatch (lines 108-128) for one category
bucket, combining _display_large_category (lines 145-176) and
_display_small_category (lines 130-143).  Python list slices hosts[:n] and
hosts[n:] are take and drop; the sample previews the first 3 omitted
entries, each contributing h.get("clean_url", h.get("url", "")), which on
host_data dicts is always the clean_url. -/
def display_category (max_hosts : Nat) (hosts : List HostData) : CategoryRender :=
  if hosts.length > max_hosts then
    let remaining := hosts.length - max_hosts
    let remaining_hosts := hosts.drop max_hosts
    let sample := (remaining_hosts.take 3).map (fun h => h.clean_url)
    { shown := hosts.take max_hosts,
      large_warning := some (max_hosts, hosts.length),
      not_shown_count := if remaining > 0 then some remaining else none,
      sample_line :=
        if remaining > 0 then
          if sample.length > 0 then
            some (sample, if remaining > 3 then some (remaining - 3) else none)
          else none
        else none }
  else
    { shown := hosts, large_warning := none, not_shown_count := none, sample_line := none }

/-- The --max-hosts argument handling of main (lines 548-557): the string
"all" (case-folded) selects the unbounded sentinel 999999, a numeric value
below 1 or a non-numeric value aborts (none = sys.exit(1)). -/
def parse_max_hosts (s : String) : Option Nat :=
  if pyLower s = "all" then some 999999
  else match s.toNat? with
    | some n => if n < 1 then none else some n
    | none => none

/-- A rendered single-host line of _display_host (lines 178-199). -/
structure HostLine where
  status_code : Int
  url_display : String
  title_display : String
deriving Repr, DecidableEq

/-- _display_host: url is host.get("clean_url", host.get("url", "")), which
on host_data dicts is the clean_url; the title is pre-sliced to its first
40 characters at line 182 before the 40-character check at line 189. -/
def display_host (host : HostData) : HostLine :=
  let url := host.clean_url
  let title := pySlice host.title 40
  let url_display := if pyLen url > 40 then pySlice url 37 ++ "..." else url
  let title_display := if pyLen title > 40 then pySlice title 37 ++ "..." else title
  { status_code := host.status_code, url_display := url_display,
    title_display := title_display }

/-- Concrete host entries for the display witnesses. -/
def hdA : HostData :=
  { url := "http://a.example.com", clean_url := "a.example.com", status_code := 200,
    title := "A", is_https := false }

def hdB : HostData :=
  { url := "http://b.example.com", clean_url := "b.example.com", status_code := 200,
    title := "B", is_https := false }

def hdC : HostData :=
  { url := "http://c.example.com", clean_url := "c.example.com", status_code := 200,
    title := "C", is_https := false }

/-- A host whose clean URL and title are both 50 characters long. -/
def hostLong : HostData :=
  { url := "", clean_url := String.mk (List.replicate 50 'b'), status_code := 200,
    title := String.mk (List.replicate 50 'a'), is_https := false }

theorem pyLen_append (a b : String) : pyLen (a ++ b) = pyLen a + pyLen b :=
  List.length_append a.data b.data

theorem pyLen_slice (s : String) (n : Nat) : pyLen (pySlice s n) = min n (pyLen s) :=
  List.length_take n s.data

/-! ## Claim theorems for the Presentation Engine -/

/-- C6: for every category holding more than max_hosts entries, the
detailed listing renders exactly the first max_hosts entries in order,
emits a warning stating how many entries are hidden, previews up to 3 of
the omitted entries clean URLs, and appends a +K more suffix exactly when
more than 3 entries are omitted; a category holding at most max_hosts
entries, including 500 entries under the "all" sentinel 999999, renders
every entry with no omission warning. -/
theorem C6_display_cap (max_hosts : Nat) (hosts : List HostData) :
    (hosts.length > max_hosts →
      display_category max_hosts hosts =
        { shown := hosts.take max_hosts,
          large_warning := some (max_hosts, hosts.length),
          not_shown_count := some (hosts.length - max_hosts),
          sample_line := some (((hosts.drop max_hosts).take 3).map (fun h => h.clean_url),
            if hosts.length - max_hosts > 3 then some (hosts.length - max_hosts - 3)
            else none) }) ∧
    (hosts.length ≤ max_hosts →
      display_category max_hosts hosts =
        { shown := hosts, large_warning := none, not_shown_count := none,
          sample_line := none }) ∧
    parse_max_hosts "all" = some 999999 ∧
    (hosts.length = 500 →
      display_category 999999 hosts =
        { shown := hosts, large_warning := none, not_shown_count := none,
          sample_line := none }) := by
  refine ⟨?_, ?_, by decide, ?_⟩
  · intro h
    have h1 : hosts.length - max_hosts > 0 := by omega
    have h2 : (((hosts.drop max_hosts).take 3).map (fun h => h.clean_url)).length > 0 := by
      simp only [List.length_map, List.length_take, List.length_drop]
      omega
    simp only [display_category, if_pos h]
    simp [h1, h2]
  · intro h
    have hn : ¬ (hosts.length > max_hosts) := by omega
    simp only [display_category, if_neg hn]
  · intro h
    have hn : ¬ (hosts.length > 999999) := by omega
    simp only [display_category, if_neg hn]

/-- C6 witness: the theorem applied to a 3-entry category capped at 2, and
to 500 entries under the "all" sentinel. -/
theorem C6_display_cap_witness :
    display_category 2 [hdA, hdB, hdC] =
      { shown := [hdA, hdB], large_warning := some (2, 3), not_shown_count := some 1,
        sample_line := some (["c.example.com"], none) } ∧
    display_category 999999 (List.replicate 500 hdA) =
      { shown := List.replicate 500 hdA, large_warning := none, not_shown_count := none,
        sample_line := none } := by
  constructor
  · exact ((C6_display_cap 2 [hdA, hdB, hdC]).1 (by decide)).trans rfl
  · exact (C6_display_cap 999999 (List.replicate 500 hdA)).2.2.2
      (by simp only [List.length_replicate])

/-- C7 counterexample: a 50-character title is truncated to its first 40
characters with no ellipsis marker appended, while a 50-character clean URL
does get the marker; the claim that both fields receive the marker when
truncated is false. -/
theorem C7_counterexample :
    (display_host hostLong).url_display = String.mk (List.replicate 37 'b') ++ "..." ∧
    (display_host hostLong).title_display = String.mk (List.replicate 40 'a') ∧
    (display_host hostLong).title_display ≠
      String.mk (List.replicate 37 'a') ++ "..." := by
  exact ⟨rfl, rfl, by decide⟩

/-- C7 (amended): when a single host line is rendered, the clean URL is
truncated to at most 40 display characters with an ellipsis marker exactly
when it exceeded 40 characters; the title is pre-truncated to its first 40
characters and never receives an ellipsis marker (its marker branch is
dead code). -/
theorem C7_truncation_amended (host : HostData) :
    (pyLen host.clean_url ≤ 40 → (display_host host).url_display = host.clean_url) ∧
    (pyLen host.clean_url > 40 →
      (display_host host).url_display = pySlice host.clean_url 37 ++ "..." ∧
      pyLen (display_host host).url_display = 40) ∧
    (display_host host).title_display = pySlice host.title 40 ∧
    pyLen (display_host host).title_display ≤ 40 := by
  have htitle : ¬ (pyLen (pySlice host.title 40) > 40) := by
    rw [pyLen_slice]
    omega
  refine ⟨?_, ?_, ?_, ?_⟩
  · intro h
    have hn : ¬ (pyLen host.clean_url > 40) := by omega
    simp only [display_host, if_neg hn]
  · intro h
    constructor
    · simp only [display_host, if_pos h]
    · simp only [display_host, if_pos h]
      rw [pyLen_append, pyLen_slice]
      have h3 : pyLen "..." = 3 := rfl
      omega
  · simp only [display_host, if_neg htitle]
  · simp only [display_host, if_neg htitle]
    rw [pyLen_slice]
    omega

/-- C7 witness: the amended theorem applied to the 50-character host. -/
theorem C7_truncation_amended_witness :
    (display_host hostLong).url_display = pySlice hostLong.clean_url 37 ++ "..." ∧
    pyLen (display_host hostLong).url_display = 40 ∧
    (display_host hostLong).title_display = pySlice hostLong.title 40 := by
  have h := C7_truncation_amended hostLong
  exact ⟨(h.2.1 (by decide)).1, (h.2.1 (by decide)).2, h.2.2.1⟩

/-! ## Orchestrator (main, src/recon_tool.py lines 524-633) -/

/-- An abnormal event raised inside the try body before the cleanup loop is
reached: the user interrupt (caught by the KeyboardInterrupt clause, exit
0), or any other uncaught fault (caught by the Exception clause, exit 1).
sys.exit raises SystemExit, which neither except clause catches. -/
inductive Abnormal where
  | interrupt
  | fault
deriving Repr, DecidableEq

/-- Observable outcome of one run of main. -/
structure MainResult where
  exit_code : Nat
  temp_files_removed : Bool
deriving Repr, DecidableEq

/-- The control flow of main from line 578 on, as a function of the step
outcomes: subfinder failing exits 1 (line 582); httpx failing exits 1
(line 587); an empty parse result exits 1 (line 593); otherwise the run
categorizes, displays, saves, and then reaches the cleanup loop (lines
611-617) that removes the two temp files.  The cleanup loop sits inside
the try body after step 6, so it runs only when every prior step succeeded
and no interrupt or fault occurred. -/
def main_run (subfinder_ok httpx_ok : Bool) (results : List PyJson)
    (abnormal : Option Abnormal) : MainResult :=
  match abnormal with
  | some .interrupt => { exit_code := 0, temp_files_removed := false }
  | some .fault => { exit_code := 1, temp_files_removed := false }
  | none =>
    if !subfinder_ok then { exit_code := 1, temp_files_removed := false }
    else if !httpx_ok then { exit_code := 1, temp_files_removed := false }
    else if results.isEmpty then { exit_code := 1, temp_files_removed := false }
    else { exit_code := 0, temp_files_removed := true }

/-- C9 counterexample: the temp files are NOT removed on the subfinder
failure, httpx failure, empty-parse, interrupt, or fault exit paths — only
on the success path — contradicting the claim that cleanup happens on
every exit path. -/
theorem C9_counterexample :
    (main_run false true [] none).temp_files_removed = false ∧
    (main_run true false [] none).temp_files_removed = false ∧
    (main_run true true [] none).temp_files_removed = false ∧
    (main_run true true [PyJson.obj [("url", PyJson.str "x")]]
      (some Abnormal.interrupt)).temp_files_removed = false ∧
    (main_run true true [PyJson.obj [("url", PyJson.str "x")]]
      (some Abnormal.fault)).temp_files_removed = false ∧
    (main_run true true [PyJson.obj [("url", PyJson.str "x")]]
      none).temp_files_removed = true :=
  ⟨rfl, rfl, rfl, rfl, rfl, rfl⟩

/-- C9 (amended): the transient intermediate files are removed exactly on
the success path — when discovery and probing succeed, the parse is
non-empty, and no interrupt or fault occurs; every handled failure path
and the interrupt path exit without removing them. -/
theorem C9_cleanup_amended (subfinder_ok httpx_ok : Bool) (results : List PyJson)
    (abnormal : Option Abnormal) :
    (main_run subfinder_ok httpx_ok results abnormal).temp_files_removed =
      (abnormal.isNone && subfinder_ok && httpx_ok && !results.isEmpty) := by
  cases abnormal with
  | some a => cases a <;> rfl
  | none =>
    cases subfinder_ok <;> cases httpx_ok <;> cases results <;> rfl

end Recon
